import Mathlib

/-!
Verification of the stratifyai request-routing and response-normalization
core against its specification.

The Python source is shallowly embedded:
* floats on rounding-free paths become `ℚ`;
* Python ints become `ℤ`;
* fallible access / possibly-absent dict keys become `Option`;
* a Python dict used as a map becomes an association list read with
  `List.lookup` (mirroring `dict.get(key, default)` via `Option.getD`);
* raising becomes `Except`.
-/

/-- Python's `needle in haystack` substring test on strings. -/
def str_contains (haystack needle : String) : Bool :=
  (List.range (haystack.data.length + 1)).any
    (fun i => needle.data.isPrefixOf (haystack.data.drop i))

/-- Python's `s.lower()` (ASCII case folding, which covers every model name
the rule table mentions). -/
def py_lower (s : String) : String :=
  ⟨s.data.map Char.toLower⟩

/-- Python's `s.startswith(pat)`. -/
def py_startswith (s pat : String) : Bool :=
  pat.data.isPrefixOf s.data

/-- Python's `a or b` for an optional string `a`: returns `a` when it is a
truthy (non-`None`, non-empty) string, else `b`. -/
def pyStrOr (a : Option String) (b : String) : String :=
  match a with
  | some s => if s = "" then b else s
  | none => b

namespace StratifyAI

/-- One row of the model catalog (a Python dict with possibly-absent keys),
as read by `reasoning_detector.py` (`reasoning_model`), the CLI
(`fixed_temperature`) and the providers (`cost_input`, `cost_output`). -/
structure ModelInfo where
  reasoning_model : Option Bool := none
  fixed_temperature : Option ℚ := none
  cost_input : Option ℚ := none
  cost_output : Option ℚ := none
deriving Repr, DecidableEq

/-- `model_catalog`: provider → model → info, an association list mirroring
the nested Python dict. -/
abbrev Catalog := List (String × List (String × ModelInfo))

/-- The catalog branch of `is_reasoning_model`
(src/stratifyai/utils/reasoning_detector.py lines 38-43):
`if model_catalog:` (truthy: provided and non-empty), then
`model_catalog.get(provider, {}).get(model, {}).get("reasoning_model", False)`. -/
def catalog_reasoning_flag (provider model : String)
    (model_catalog : Option Catalog) : Bool :=
  match model_catalog with
  | none => false
  | some c =>
    if c.isEmpty then false
    else
      let provider_models := (c.lookup provider).getD []
      let model_info := (provider_models.lookup model).getD {}
      model_info.reasoning_model.getD false

/-- The name-pattern branch of `is_reasoning_model`
(src/stratifyai/utils/reasoning_detector.py lines 45-84): reached when the
catalog flag did not fire; `if not model: return False`, then provider-keyed
substring / prefix rules over `model.lower()`. -/
def pattern_reasoning (provider model : String) : Bool :=
  if model = "" then false
  else
    let model_lower := py_lower model
    ((provider == "openai" || provider == "deepseek" || provider == "openrouter") &&
      (py_startswith model_lower "o1" ||
       py_startswith model_lower "o3" ||
       py_startswith model_lower "gpt-5" ||
       str_contains model_lower "reasoner" ||
       str_contains model_lower "reasoning" ||
       (py_startswith model_lower "o" && model_lower.length > 1 &&
         (match model_lower.data with
          | _ :: c :: _ => c.isDigit
          | _ => false)))) ||
    (provider == "grok" &&
      (str_contains model_lower "reasoning" ||
       model_lower == "grok-4" ||
       py_startswith model_lower "grok-3-mini" ||
       py_startswith model_lower "grok-code")) ||
    (provider == "deepseek" &&
      (str_contains model_lower "reasoner" || str_contains model_lower "reasoning")) ||
    (provider == "groq" &&
      (str_contains model_lower "reasoning" || str_contains model_lower "gpt-oss"))

/-- `is_reasoning_model(provider, model, model_catalog)`
(src/stratifyai/utils/reasoning_detector.py lines 10-84): the catalog flag
check returns `True` early when it fires; otherwise the pattern rules run. -/
def is_reasoning_model (provider model : String)
    (model_catalog : Option Catalog) : Bool :=
  catalog_reasoning_flag provider model model_catalog ||
  pattern_reasoning provider model

/-- `get_temperature_for_model(provider, model, requested_temperature,
model_catalog, default_temperature=0.7)`
(src/stratifyai/utils/reasoning_detector.py lines 87-113). -/
def get_temperature_for_model (provider model : String)
    (requested_temperature : Option ℚ) (model_catalog : Option Catalog)
    (default_temperature : ℚ := 7/10) : ℚ :=
  if is_reasoning_model provider model model_catalog then 1
  else requested_temperature.getD default_temperature

end StratifyAI

/-- C1: for every provider, model and catalog classified as reasoning,
`get_temperature_for_model` returns 1.0 regardless of the requested
temperature. -/
theorem StratifyAI.reasoning_model_temperature_is_one
    (provider model : String) (model_catalog : Option StratifyAI.Catalog)
    (requested_temperature : Option ℚ) (default_temperature : ℚ)
    (h : StratifyAI.is_reasoning_model provider model model_catalog = true) :
    StratifyAI.get_temperature_for_model provider model requested_temperature
      model_catalog default_temperature = 1 := by
  simp [StratifyAI.get_temperature_for_model, h]

/-- C1 witness: `openai/o1` is classified as reasoning and its effective
temperature is 1.0 even when 0.2 was requested. -/
theorem StratifyAI.reasoning_model_temperature_is_one_witness :
    StratifyAI.is_reasoning_model "openai" "o1" none = true ∧
    StratifyAI.get_temperature_for_model "openai" "o1" (some (2/10)) none (7/10) = 1 :=
  ⟨by decide, StratifyAI.reasoning_model_temperature_is_one
    "openai" "o1" none (some (2/10)) (7/10) (by decide)⟩

/-- Relates the catalog-flag branch of `is_reasoning_model` to the looked-up
row: the flag short-circuits only when it is `true`. -/
theorem StratifyAI.catalog_reasoning_flag_of_lookup
    (provider model : String) (c : StratifyAI.Catalog)
    (pm : List (String × StratifyAI.ModelInfo)) (mi : StratifyAI.ModelInfo)
    (hp : c.lookup provider = some pm) (hm : pm.lookup model = some mi) :
    StratifyAI.catalog_reasoning_flag provider model (some c) =
      mi.reasoning_model.getD false := by
  cases c with
  | nil => simp [List.lookup] at hp
  | cons hd tl => simp [StratifyAI.catalog_reasoning_flag, hp, hm]

/-- C2 counterexample: a catalog row declaring `fixed_temperature = 0.5`
for a non-reasoning model does not make `get_temperature_for_model` return
0.5 — the requested 0.2 is returned instead, so decision step (a) of the
claim is not implemented by this function. -/
theorem StratifyAI.fixed_temperature_ignored :
    ([("openai", [("gpt-4o", ({ fixed_temperature := some (1/2) } : StratifyAI.ModelInfo))])].lookup
        "openai" |>.bind (fun pm => pm.lookup "gpt-4o"))
      = some { fixed_temperature := some (1/2) } ∧
    StratifyAI.get_temperature_for_model "openai" "gpt-4o" (some (2/10))
      (some [("openai", [("gpt-4o", { fixed_temperature := some (1/2) })])]) (7/10)
      = 2/10 ∧
    (2/10 : ℚ) ≠ 1/2 := by
  refine ⟨rfl, rfl, by norm_num⟩

/-- C2 amended: `get_temperature_for_model` implements only steps (b) and
(c) of the decision order — reasoning models get 1.0, all other models get
the requested temperature when one is given and the configured default
otherwise; a catalog `fixed_temperature` is not consulted by this function. -/
theorem StratifyAI.get_temperature_decision_order
    (provider model : String) (model_catalog : Option StratifyAI.Catalog) (d t : ℚ) :
    (StratifyAI.is_reasoning_model provider model model_catalog = true →
      ∀ t0 : Option ℚ,
        StratifyAI.get_temperature_for_model provider model t0 model_catalog d = 1) ∧
    (StratifyAI.is_reasoning_model provider model model_catalog = false →
      StratifyAI.get_temperature_for_model provider model (some t) model_catalog d = t ∧
      StratifyAI.get_temperature_for_model provider model none model_catalog d = d) := by
  constructor
  · intro h t0
    simp [StratifyAI.get_temperature_for_model, h]
  · intro h
    simp [StratifyAI.get_temperature_for_model, h]

/-- C2 witness: reasoning model `openai/o1` gets 1.0; non-reasoning
`openai/gpt-4o` gets the requested 0.2, and the default 0.7 when nothing
was requested. -/
theorem StratifyAI.get_temperature_decision_order_witness :
    StratifyAI.get_temperature_for_model "openai" "o1" (some (2/10)) none (7/10) = 1 ∧
    StratifyAI.get_temperature_for_model "openai" "gpt-4o" (some (2/10)) none (7/10) = 2/10 ∧
    StratifyAI.get_temperature_for_model "openai" "gpt-4o" none none (7/10) = 7/10 :=
  ⟨(StratifyAI.get_temperature_decision_order "openai" "o1" none (7/10) (2/10)).1
      (by decide) (some (2/10)),
   ((StratifyAI.get_temperature_decision_order "openai" "gpt-4o" none (7/10) (2/10)).2
      (by decide)).1,
   ((StratifyAI.get_temperature_decision_order "openai" "gpt-4o" none (7/10) (2/10)).2
      (by decide)).2⟩

/-- C6 counterexample: a catalog row that explicitly sets
`reasoning_model = False` for `openai/o1` does not make `is_reasoning_model`
return `False`: the name-pattern rules still fire, so the function does not
return "exactly that flag's value". -/
theorem StratifyAI.explicit_false_flag_not_respected :
    (([("openai", [("o1", ({ reasoning_model := some false } : StratifyAI.ModelInfo))])].lookup
        "openai" |>.bind (fun pm => pm.lookup "o1"))
      = some { reasoning_model := some false }) ∧
    StratifyAI.is_reasoning_model "openai" "o1"
      (some [("openai", [("o1", { reasoning_model := some false })])]) = true := by
  constructor
  · decide
  · decide

/-- C6 amended: the catalog flag short-circuits only when it is `true`:
when the row for (provider, model) carries `reasoning_model = true` the
function returns `true`; when the flag is `false` or absent, the result
equals the provider-specific name-pattern rules. -/
theorem StratifyAI.is_reasoning_model_flag_then_patterns
    (provider model : String) (c : StratifyAI.Catalog)
    (pm : List (String × StratifyAI.ModelInfo)) (mi : StratifyAI.ModelInfo)
    (hp : c.lookup provider = some pm) (hm : pm.lookup model = some mi) :
    (mi.reasoning_model = some true →
      StratifyAI.is_reasoning_model provider model (some c) = true) ∧
    (mi.reasoning_model.getD false = false →
      StratifyAI.is_reasoning_model provider model (some c) =
        StratifyAI.pattern_reasoning provider model) := by
  have hflag := StratifyAI.catalog_reasoning_flag_of_lookup provider model c pm mi hp hm
  constructor
  · intro h
    simp [StratifyAI.is_reasoning_model, hflag, h]
  · intro h
    simp [StratifyAI.is_reasoning_model, hflag, h]

/-- C6 witness: a `reasoning_model = true` flag classifies an
arbitrarily-named model as reasoning, and with the flag set to `false` the
result coincides with the name-pattern rules. -/
theorem StratifyAI.is_reasoning_model_flag_then_patterns_witness :
    StratifyAI.is_reasoning_model "acme" "foo"
      (some [("acme", [("foo", { reasoning_model := some true })])]) = true ∧
    StratifyAI.is_reasoning_model "openai" "o1"
      (some [("openai", [("o1", { reasoning_model := some false })])]) =
      StratifyAI.pattern_reasoning "openai" "o1" :=
  ⟨(StratifyAI.is_reasoning_model_flag_then_patterns "acme" "foo"
      [("acme", [("foo", { reasoning_model := some true })])]
      [("foo", { reasoning_model := some true })]
      { reasoning_model := some true } (by decide) (by decide)).1 rfl,
   (StratifyAI.is_reasoning_model_flag_then_patterns "openai" "o1"
      [("openai", [("o1", { reasoning_model := some false })])]
      [("o1", { reasoning_model := some false })]
      { reasoning_model := some false } (by decide) (by decide)).2 rfl⟩

namespace LLMAbstraction

/-- `Message.role` is `Literal["system", "user", "assistant"]`
(src/llm_abstraction/models.py). -/
inductive Role where
  | system
  | user
  | assistant
deriving Repr, DecidableEq

/-- `Message` (src/llm_abstraction/models.py). -/
structure Message where
  role : Role
  content : String
  name : Option String := none
deriving Repr, DecidableEq

/-- `Usage` (src/llm_abstraction/models.py): token counts are Python ints,
`cost_usd` a float computed on a rounding-free path, modelled in `ℚ`. -/
structure Usage where
  prompt_tokens : ℤ
  completion_tokens : ℤ
  total_tokens : ℤ
  cached_tokens : ℤ := 0
  reasoning_tokens : ℤ := 0
  cost_usd : ℚ := 0
deriving Repr, DecidableEq

/-- `ChatRequest` (src/llm_abstraction/models.py); `extra_params` is an
open-ended dict, modelled as an association list of opaque strings. -/
structure ChatRequest where
  model : String
  messages : List Message
  temperature : ℚ := 7/10
  max_tokens : Option ℤ := none
  stream : Bool := false
  top_p : ℚ := 1
  frequency_penalty : ℚ := 0
  presence_penalty : ℚ := 0
  stop : Option (List String) := none
  reasoning_effort : Option String := none
  extra_params : List (String × String) := []
deriving Repr, DecidableEq

/-- `ChatResponse` (src/llm_abstraction/models.py), parametric in the type
of the opaque `raw_response` payload (a full response or a stream chunk);
`created_at` is the provider's Unix timestamp. -/
structure ChatResponse (ρ : Type) where
  id : String
  model : String
  content : String
  finish_reason : String
  usage : Usage
  provider : String
  created_at : ℤ
  raw_response : ρ
deriving Repr, DecidableEq

/-- `usage.prompt_tokens_details` of a raw OpenAI payload. -/
structure RawPromptTokensDetails where
  cached_tokens : Option ℤ := none
deriving Repr, DecidableEq

/-- `usage.completion_tokens_details` of a raw OpenAI payload. -/
structure RawCompletionTokensDetails where
  reasoning_tokens : Option ℤ := none
deriving Repr, DecidableEq

/-- The `usage` dict of a raw OpenAI payload; every key may be absent
(`dict.get` with a default in `_normalize_response`). -/
structure RawUsage where
  prompt_tokens : Option ℤ := none
  completion_tokens : Option ℤ := none
  total_tokens : Option ℤ := none
  prompt_tokens_details : Option RawPromptTokensDetails := none
  completion_tokens_details : Option RawCompletionTokensDetails := none
deriving Repr, DecidableEq

/-- `choices[i].message` of a raw payload: `content` may be JSON null. -/
structure RawMessage where
  content : Option String := none
deriving Repr, DecidableEq

/-- `choices[i]` of a raw non-streaming payload. -/
structure RawChoice where
  message : RawMessage
  finish_reason : String
deriving Repr, DecidableEq

/-- A raw non-streaming OpenAI payload, as consumed by
`_normalize_response` (src/llm_abstraction/providers/openai.py lines
159-197): `id`, `model`, `created` are accessed unconditionally, `choices`
is indexed at 0 (an empty list raises, caught as `ProviderAPIError` by the
caller), `usage` is read with `.get("usage", {})`. -/
structure RawResponse where
  id : String
  model : String
  created : ℤ
  choices : List RawChoice
  usage : Option RawUsage := none
deriving Repr, DecidableEq

/-- `choices[i].delta` of a raw streaming chunk. -/
structure RawDelta where
  content : Option String := none
deriving Repr, DecidableEq

/-- `choices[i]` of a raw streaming chunk. -/
structure RawStreamChoice where
  delta : RawDelta
  finish_reason : Option String := none
deriving Repr, DecidableEq

/-- A raw streaming chunk, as consumed by `_normalize_stream_chunk`
(src/llm_abstraction/providers/openai.py lines 199-217). -/
structure RawChunk where
  id : String
  model : String
  created : ℤ
  choices : List RawStreamChoice
deriving Repr, DecidableEq

/-- The `OPENAI_MODELS` table shape (src/llm_abstraction/config.py):
model name → catalog row; rows share the `ModelInfo` dict shape. -/
abbrev ModelTable := List (String × StratifyAI.ModelInfo)

/-- `OpenAIProvider._calculate_cost(usage, model)`
(src/llm_abstraction/providers/openai.py lines 219-238), parametrized by
the `OPENAI_MODELS` table it reads: `.get(model, {})` then
`.get("cost_input", 0.0)` / `.get("cost_output", 0.0)`; prices are per 1M
tokens. -/
def _calculate_cost (models : ModelTable) (usage : Usage) (model : String) : ℚ :=
  let model_info := (models.lookup model).getD {}
  let cost_input := model_info.cost_input.getD 0
  let cost_output := model_info.cost_output.getD 0
  let input_cost := ((usage.prompt_tokens : ℚ) / 1000000) * cost_input
  let output_cost := ((usage.completion_tokens : ℚ) / 1000000) * cost_output
  input_cost + output_cost

/-- `OpenAIProvider._normalize_response(raw_response)`
(src/llm_abstraction/providers/openai.py lines 159-197). Returns `none`
exactly when `raw_response["choices"][0]` raises (empty `choices`); the
caller turns that into a `ProviderAPIError`. -/
def _normalize_response (models : ModelTable) (raw_response : RawResponse) :
    Option (ChatResponse RawResponse) :=
  match raw_response.choices with
  | [] => none
  | choice :: _ =>
    let usage_dict := raw_response.usage.getD {}
    let usage : Usage :=
      { prompt_tokens := usage_dict.prompt_tokens.getD 0
        completion_tokens := usage_dict.completion_tokens.getD 0
        total_tokens := usage_dict.total_tokens.getD 0
        cached_tokens := (usage_dict.prompt_tokens_details.getD {}).cached_tokens.getD 0
        reasoning_tokens := (usage_dict.completion_tokens_details.getD {}).reasoning_tokens.getD 0 }
    let usage := { usage with cost_usd := _calculate_cost models usage raw_response.model }
    some
      { id := raw_response.id
        model := raw_response.model
        content := pyStrOr choice.message.content ""
        finish_reason := choice.finish_reason
        usage := usage
        provider := "openai"
        created_at := raw_response.created
        raw_response := raw_response }

/-- `OpenAIProvider._normalize_stream_chunk(chunk_dict)`
(src/llm_abstraction/providers/openai.py lines 199-217): a hard-coded
all-zero `Usage`; `none` models the exception on empty `choices`. -/
def _normalize_stream_chunk (chunk_dict : RawChunk) :
    Option (ChatResponse RawChunk) :=
  match chunk_dict.choices with
  | [] => none
  | choice :: _ =>
    some
      { id := chunk_dict.id
        model := chunk_dict.model
        content := choice.delta.content.getD ""
        finish_reason := choice.finish_reason.getD ""
        usage := { prompt_tokens := 0, completion_tokens := 0, total_tokens := 0 }
        provider := "openai"
        created_at := chunk_dict.created
        raw_response := chunk_dict }

/-- The provider error taxonomy raised by the OpenAI provider
(src/llm_abstraction/exceptions.py, as used in openai.py). -/
inductive ProviderError where
  | invalidModelError (model provider : String)
  | providerAPIError (message provider : String)
  | authenticationError (provider : String)
deriving Repr, DecidableEq

/-- Modelled from the spec: `BaseProvider.validate_model` lives in
src/llm_abstraction/providers/base.py, which is not among the available
sources. The spec's taxonomy defines `InvalidModelError` as "unknown
identifiers", so validation is membership of the request's model in the
provider's supported models (`get_supported_models`, the keys of
`OPENAI_MODELS`). -/
def validate_model (supported : List String) (model : String) : Bool :=
  supported.contains model

/-- `OpenAIProvider.chat_completion(request)`
(src/llm_abstraction/providers/openai.py lines 58-111): model validation
first, then the provider API call (here an oracle `api`, standing for
`self._client.chat.completions.create`), whose failure — like any
exception inside the `try`, including normalization errors — is wrapped in
`ProviderAPIError`. -/
def chat_completion (supported : List String) (models : ModelTable)
    (api : Except String RawResponse) (request : ChatRequest) :
    Except ProviderError (ChatResponse RawResponse) :=
  if !(validate_model supported request.model) then
    .error (.invalidModelError request.model "openai")
  else
    match api with
    | .error e =>
      .error (.providerAPIError ("Chat completion failed: " ++ e) "openai")
    | .ok raw_response =>
      match _normalize_response models raw_response with
      | some resp => .ok resp
      | none =>
        .error (.providerAPIError "Chat completion failed: list index out of range" "openai")

/-- The yield guard of `chat_completion_stream`
(src/llm_abstraction/providers/openai.py line 151):
`if chunk.choices and chunk.choices[0].delta.content:`. -/
def streamChunkKept (chunk : RawChunk) : Bool :=
  match chunk.choices with
  | [] => false
  | choice :: _ =>
    match choice.delta.content with
    | none => false
    | some s => s != ""

/-- `OpenAIProvider.chat_completion_stream(request)`
(src/llm_abstraction/providers/openai.py lines 113-157): model validation
first; the upstream stream (an oracle, standing for the provider SDK call
with `stream=True`) either fails — wrapped in `ProviderAPIError` — or
yields its chunks, of which exactly those passing the guard are
normalized and yielded. -/
def chat_completion_stream (supported : List String) (request : ChatRequest)
    (stream : Except String (List RawChunk)) :
    Except ProviderError (List (ChatResponse RawChunk)) :=
  if !(validate_model supported request.model) then
    .error (.invalidModelError request.model "openai")
  else
    match stream with
    | .error e =>
      .error (.providerAPIError ("Streaming chat completion failed: " ++ e) "openai")
    | .ok chunks =>
      .ok (chunks.filterMap
        (fun chunk =>
          if streamChunkKept chunk then _normalize_stream_chunk chunk else none))

end LLMAbstraction

/-- C3: for a model present in the table with both prices declared,
`_calculate_cost` returns
`(prompt_tokens/1e6)*cost_input + (completion_tokens/1e6)*cost_output`. -/
theorem LLMAbstraction.calculate_cost_formula
    (models : LLMAbstraction.ModelTable) (model : String)
    (mi : StratifyAI.ModelInfo) (ci co : ℚ) (usage : LLMAbstraction.Usage)
    (hm : models.lookup model = some mi)
    (hci : mi.cost_input = some ci) (hco : mi.cost_output = some co) :
    LLMAbstraction._calculate_cost models usage model =
      ((usage.prompt_tokens : ℚ) / 1000000) * ci +
      ((usage.completion_tokens : ℚ) / 1000000) * co := by
  simp [LLMAbstraction._calculate_cost, hm, hci, hco]

/-- C3 witness: prompt 1000, completion 500, $5/1M in, $15/1M out gives
$0.0125. -/
theorem LLMAbstraction.calculate_cost_formula_witness :
    LLMAbstraction._calculate_cost
      [("gpt-x", { cost_input := some 5, cost_output := some 15 })]
      { prompt_tokens := 1000, completion_tokens := 500, total_tokens := 1500 }
      "gpt-x" = 0.0125 := by
  have h := LLMAbstraction.calculate_cost_formula
    [("gpt-x", { cost_input := some 5, cost_output := some 15 })] "gpt-x"
    { cost_input := some 5, cost_output := some 15 } 5 15
    { prompt_tokens := 1000, completion_tokens := 500, total_tokens := 1500 }
    rfl rfl rfl
  rw [h]
  norm_num

/-- C4: for a model absent from the table, `_calculate_cost` returns 0.0
(and, being a total function here as in the source, raises nothing). -/
theorem LLMAbstraction.calculate_cost_missing_model_zero
    (models : LLMAbstraction.ModelTable) (model : String)
    (usage : LLMAbstraction.Usage)
    (hm : models.lookup model = none) :
    LLMAbstraction._calculate_cost models usage model = 0 := by
  simp [LLMAbstraction._calculate_cost, hm]

/-- C4 witness: an empty table yields zero cost for any usage. -/
theorem LLMAbstraction.calculate_cost_missing_model_zero_witness :
    LLMAbstraction._calculate_cost []
      { prompt_tokens := 1000, completion_tokens := 500, total_tokens := 1500 }
      "gpt-4o" = 0 :=
  LLMAbstraction.calculate_cost_missing_model_zero [] "gpt-4o"
    { prompt_tokens := 1000, completion_tokens := 500, total_tokens := 1500 } rfl

/-- C5 counterexample: `_normalize_response` copies the payload's
`total_tokens` verbatim, so a payload reporting prompt 1, completion 1,
total 5 yields a normalized `Usage` violating
`total_tokens == prompt_tokens + completion_tokens`. -/
theorem LLMAbstraction.normalize_response_copies_payload_total :
    ((LLMAbstraction._normalize_response []
        { id := "resp-1", model := "gpt-4o", created := 0,
          choices := [{ message := { content := some "hi" }, finish_reason := "stop" }],
          usage := some { prompt_tokens := some 1, completion_tokens := some 1,
                          total_tokens := some 5 } }).map
      (fun r => (r.usage.prompt_tokens, r.usage.completion_tokens, r.usage.total_tokens)))
      = some (1, 1, 5) ∧ (5 : ℤ) ≠ 1 + 1 :=
  ⟨rfl, by decide⟩

/-- C5 amended: the normalized `Usage` satisfies the invariant
`total_tokens == prompt_tokens + completion_tokens` with all counts ≥ 0
whenever the raw payload's own usage numbers (absent keys defaulting to 0)
satisfy it — the normalizer copies them and adds nothing. -/
theorem LLMAbstraction.normalize_response_usage_invariant
    (models : LLMAbstraction.ModelTable) (raw : LLMAbstraction.RawResponse)
    (resp : LLMAbstraction.ChatResponse LLMAbstraction.RawResponse)
    (hn : LLMAbstraction._normalize_response models raw = some resp)
    (htot : (raw.usage.getD {}).total_tokens.getD 0 =
      (raw.usage.getD {}).prompt_tokens.getD 0 +
      (raw.usage.getD {}).completion_tokens.getD 0)
    (hp : 0 ≤ (raw.usage.getD {}).prompt_tokens.getD 0)
    (hc : 0 ≤ (raw.usage.getD {}).completion_tokens.getD 0)
    (hcached : 0 ≤ ((raw.usage.getD {}).prompt_tokens_details.getD {}).cached_tokens.getD 0)
    (hreason : 0 ≤ ((raw.usage.getD {}).completion_tokens_details.getD {}).reasoning_tokens.getD 0) :
    resp.usage.total_tokens = resp.usage.prompt_tokens + resp.usage.completion_tokens ∧
    0 ≤ resp.usage.prompt_tokens ∧ 0 ≤ resp.usage.completion_tokens ∧
    0 ≤ resp.usage.total_tokens ∧ 0 ≤ resp.usage.cached_tokens ∧
    0 ≤ resp.usage.reasoning_tokens := by
  cases hch : raw.choices with
  | nil => simp [LLMAbstraction._normalize_response, hch] at hn
  | cons choice rest =>
    simp [LLMAbstraction._normalize_response, hch] at hn
    subst hn
    refine ⟨by simpa using htot, by simpa using hp, by simpa using hc, ?_,
      by simpa using hcached, by simpa using hreason⟩
    simp only
    omega

/-- C5 witness: a payload with prompt 10, completion 5, total 15
normalizes to a `Usage` satisfying the invariant. -/
theorem LLMAbstraction.normalize_response_usage_invariant_witness :
    ((LLMAbstraction._normalize_response []
        { id := "resp-3", model := "gpt-4o", created := 0,
          choices := [{ message := { content := some "hi" }, finish_reason := "stop" }],
          usage := some { prompt_tokens := some 10, completion_tokens := some 5,
                          total_tokens := some 15 } }).map
      (fun r => decide
        (r.usage.total_tokens = r.usage.prompt_tokens + r.usage.completion_tokens ∧
         0 ≤ r.usage.prompt_tokens ∧ 0 ≤ r.usage.completion_tokens ∧
         0 ≤ r.usage.total_tokens ∧ 0 ≤ r.usage.cached_tokens ∧
         0 ≤ r.usage.reasoning_tokens)))
      = some true := by
  cases hx : LLMAbstraction._normalize_response []
      { id := "resp-3", model := "gpt-4o", created := 0,
        choices := [{ message := { content := some "hi" }, finish_reason := "stop" }],
        usage := some { prompt_tokens := some 10, completion_tokens := some 5,
                        total_tokens := some 15 } } with
  | none => exact absurd hx (by simp [LLMAbstraction._normalize_response])
  | some r =>
    have h := LLMAbstraction.normalize_response_usage_invariant [] _ r hx
      (by decide) (by decide) (by decide) (by decide) (by decide)
    simpa using h

/-- Result classifier for C7: success, or a failure that is a
`ProviderAPIError`. -/
def LLMAbstraction.okOrProviderAPIError {α : Type} :
    Except LLMAbstraction.ProviderError α → Bool
  | .ok _ => true
  | .error (.providerAPIError _ _) => true
  | .error _ => false

/-- C7: `chat_completion` fails with `InvalidModelError` exactly when the
request's model is unsupported — and then uniformly in the provider-call
oracle, i.e. before any API call; with a supported model every outcome is
either a normalized response or a `ProviderAPIError`. -/
theorem LLMAbstraction.chat_completion_error_cases
    (supported : List String) (models : LLMAbstraction.ModelTable)
    (request : LLMAbstraction.ChatRequest) :
    (LLMAbstraction.validate_model supported request.model = false ∧
      ∀ api, LLMAbstraction.chat_completion supported models api request =
        .error (.invalidModelError request.model "openai")) ∨
    (LLMAbstraction.validate_model supported request.model = true ∧
      ∀ api, LLMAbstraction.okOrProviderAPIError
        (LLMAbstraction.chat_completion supported models api request) = true) := by
  cases hv : LLMAbstraction.validate_model supported request.model with
  | false =>
    left
    refine ⟨rfl, fun api => ?_⟩
    simp [LLMAbstraction.chat_completion, hv]
  | true =>
    right
    refine ⟨rfl, fun api => ?_⟩
    cases api with
    | error e =>
      simp [LLMAbstraction.chat_completion, hv, LLMAbstraction.okOrProviderAPIError]
    | ok raw =>
      cases hn : LLMAbstraction._normalize_response models raw <;>
        simp [LLMAbstraction.chat_completion, hv, hn,
          LLMAbstraction.okOrProviderAPIError]

/-- C9: the normalized response's content is never null: it is the
payload's message content with JSON null (and, vacuously, the empty
string) replaced by `""`. -/
theorem LLMAbstraction.normalize_response_content_not_null
    (models : LLMAbstraction.ModelTable) (raw : LLMAbstraction.RawResponse)
    (resp : LLMAbstraction.ChatResponse LLMAbstraction.RawResponse)
    (choice : LLMAbstraction.RawChoice) (rest : List LLMAbstraction.RawChoice)
    (hch : raw.choices = choice :: rest)
    (hn : LLMAbstraction._normalize_response models raw = some resp) :
    resp.content = pyStrOr choice.message.content "" ∧
    (choice.message.content = none → resp.content = "") := by
  simp [LLMAbstraction._normalize_response, hch] at hn
  subst hn
  exact ⟨rfl, fun h => by simp [pyStrOr, h]⟩

/-- C9 witness: a payload whose message content is null normalizes to the
empty-string content. -/
theorem LLMAbstraction.normalize_response_content_not_null_witness :
    ((LLMAbstraction._normalize_response []
        { id := "resp-2", model := "gpt-4o", created := 0,
          choices := [{ message := { content := none }, finish_reason := "stop" }],
          usage := none }).map (fun r => r.content)) = some "" := by
  cases hx : LLMAbstraction._normalize_response []
      { id := "resp-2", model := "gpt-4o", created := 0,
        choices := [{ message := { content := none }, finish_reason := "stop" }],
        usage := none } with
  | none => exact absurd hx (by simp [LLMAbstraction._normalize_response])
  | some r =>
    have h := LLMAbstraction.normalize_response_content_not_null [] _ r
      { message := { content := none }, finish_reason := "stop" } [] rfl hx
    simp [h.2 rfl]

/-- C8: every chunk yielded by `chat_completion_stream` has non-empty
content and an all-zero `Usage` (the zero token counts and the default
zero `cost_usd`): streamed partial responses carry no accounting. -/
theorem LLMAbstraction.stream_chunks_nonempty_zero_usage
    (supported : List String) (request : LLMAbstraction.ChatRequest)
    (stream : Except String (List LLMAbstraction.RawChunk))
    (out : List (LLMAbstraction.ChatResponse LLMAbstraction.RawChunk))
    (hok : LLMAbstraction.chat_completion_stream supported request stream = .ok out) :
    ∀ r ∈ out, r.content ≠ "" ∧
      r.usage = { prompt_tokens := 0, completion_tokens := 0, total_tokens := 0 } := by
  intro r hr
  cases hv : LLMAbstraction.validate_model supported request.model with
  | false => simp [LLMAbstraction.chat_completion_stream, hv] at hok
  | true =>
    cases stream with
    | error e => simp [LLMAbstraction.chat_completion_stream, hv] at hok
    | ok chunks =>
      simp [LLMAbstraction.chat_completion_stream, hv] at hok
      subst hok
      rw [List.mem_filterMap] at hr
      obtain ⟨chunk, _, hkeep⟩ := hr
      cases hg : LLMAbstraction.streamChunkKept chunk with
      | false => simp [hg] at hkeep
      | true =>
        simp [hg] at hkeep
        cases hchs : chunk.choices with
        | nil => simp [LLMAbstraction.streamChunkKept, hchs] at hg
        | cons choice restc =>
          simp [LLMAbstraction._normalize_stream_chunk, hchs] at hkeep
          subst hkeep
          cases hco : choice.delta.content with
          | none => simp [LLMAbstraction.streamChunkKept, hchs, hco] at hg
          | some s =>
            have hs : s ≠ "" := by
              by_contra habs
              simp [LLMAbstraction.streamChunkKept, hchs, hco, habs] at hg
            exact ⟨by simpa [hco] using hs, rfl⟩

/-- C8 witness: a stream with one content-carrying chunk yields exactly
that chunk, with non-empty content and zero usage. -/
theorem LLMAbstraction.stream_chunks_nonempty_zero_usage_witness :
    ((LLMAbstraction.chat_completion_stream ["gpt-4o"]
        { model := "gpt-4o", messages := [] }
        (.ok [{ id := "c1", model := "gpt-4o", created := 0,
                choices := [{ delta := { content := some "Hel" } }] }])).map
      (fun out => out.map (fun r => decide (r.content ≠ "" ∧
        r.usage = { prompt_tokens := 0, completion_tokens := 0, total_tokens := 0 }))))
      = .ok [true] := by
  cases hx : LLMAbstraction.chat_completion_stream ["gpt-4o"]
      { model := "gpt-4o", messages := [] }
      (.ok [{ id := "c1", model := "gpt-4o", created := 0,
              choices := [{ delta := { content := some "Hel" } }] }]) with
  | error e =>
    exact absurd hx (by simp [LLMAbstraction.chat_completion_stream,
      LLMAbstraction.validate_model])
  | ok out =>
    have h := LLMAbstraction.stream_chunks_nonempty_zero_usage ["gpt-4o"]
      { model := "gpt-4o", messages := [] } _ out hx
    have hout : out =
        [{ id := "c1"
           model := "gpt-4o"
           content := "Hel"
           finish_reason := ""
           usage := { prompt_tokens := 0, completion_tokens := 0, total_tokens := 0 }
           provider := "openai"
           created_at := 0
           raw_response := { id := "c1", model := "gpt-4o", created := 0,
                             choices := [{ delta := { content := some "Hel" } }] } }] := by
      have h2 : (Except.ok [({ id := "c1"
                               model := "gpt-4o"
                               content := "Hel"
                               finish_reason := ""
                               usage := { prompt_tokens := 0, completion_tokens := 0,
                                          total_tokens := 0 }
                               provider := "openai"
                               created_at := 0
                               raw_response := { id := "c1", model := "gpt-4o", created := 0,
                                                 choices := [{ delta := { content := some "Hel" } }] } } :
              LLMAbstraction.ChatResponse LLMAbstraction.RawChunk)] :
            Except LLMAbstraction.ProviderError _) = Except.ok out := by
        rw [← hx]
        rfl
      exact (Except.ok.inj h2).symm
    subst hout
    have h1 := h _ (List.mem_singleton.mpr rfl)
    exact congrArg Except.ok (congrArg (fun b => [b]) (decide_eq_true h1))

/-- Worker for Python's `s.split(sep)` with non-empty separator
`c0 :: sepRest`: scans `l`, accumulating the current field in `acc`
(reversed). Structural recursion on a fuel argument; every step consumes
at least one character, so fuel `l.length` never runs out and the
fuel-exhausted branch is unreachable. -/
def py_split_aux (c0 : Char) (sepRest : List Char) :
    ℕ → List Char → List Char → List (List Char)
  | _, [], acc => [acc.reverse]
  | 0, l, acc => [acc.reverse ++ l]
  | fuel + 1, c :: rest, acc =>
    if (c0 :: sepRest).isPrefixOf (c :: rest) then
      acc.reverse :: py_split_aux c0 sepRest fuel (rest.drop sepRest.length) []
    else
      py_split_aux c0 sepRest fuel rest (c :: acc)

/-- Python's `s.split(sep)` for a non-empty separator (an empty separator
raises `ValueError` in Python and is never passed at our call sites, where
the result is `[s]` here). -/
def py_split (s sep : String) : List String :=
  match sep.data with
  | [] => [s]
  | c0 :: sepRest =>
    (py_split_aux c0 sepRest s.data.length s.data []).map String.mk

/-- Python's `s.split(sep, 1)`: the text before the first occurrence of
`sep`, then the untouched remainder (recomposed by joining the full split
with `sep`). -/
def py_split1 (s sep : String) : List String :=
  match py_split s sep with
  | [] => []
  | x :: xs =>
    if xs.isEmpty then [x]
    else [x, ⟨List.intercalate sep.data (xs.map String.data)⟩]

/-- Python's `s.strip()`: whitespace removed from both ends. -/
def py_strip (s : String) : String :=
  ⟨((s.data.dropWhile Char.isWhitespace).reverse.dropWhile Char.isWhitespace).reverse⟩

/-- Python's `sep.join(parts)`. -/
def py_join (sep : String) (parts : List String) : String :=
  ⟨List.intercalate sep.data (parts.map String.data)⟩

namespace StratifyAI

/-- `Message.role` is `Literal["system", "user", "assistant"]`
(src/stratifyai/models.py). -/
inductive Role where
  | system
  | user
  | assistant
deriving Repr, DecidableEq

/-- `Message` (src/stratifyai/models.py): content may embed an inline
image as `[IMAGE:mime_type]\nbase64_data`; `cache_control` is an opaque
dict. -/
structure Message where
  role : Role
  content : String
  name : Option String := none
  cache_control : Option (List (String × String)) := none
deriving Repr, DecidableEq

/-- `Message.has_image(self)` (src/stratifyai/models.py lines 16-18):
`"[IMAGE:" in self.content`. -/
def has_image (m : Message) : Bool :=
  str_contains m.content "[IMAGE:"

/-- `Message.parse_vision_content(self)` (src/stratifyai/models.py lines
20-49): early return `(self.content, None)` without an image marker; else
split on `"[IMAGE:"`, keep the stripped leading text, and take the last
well-formed `mime]base64` section as the image. -/
def parse_vision_content (m : Message) :
    Option String × Option (String × String) :=
  if !(has_image m) then (some m.content, none)
  else
    let parts := py_split m.content "[IMAGE:"
    let step := fun (acc : List String × Option (String × String))
        (ip : ℕ × String) =>
      let text_parts := acc.1
      let image_data := acc.2
      let i := ip.1
      let part := ip.2
      if i = 0 then
        (if py_strip part ≠ "" then text_parts ++ [py_strip part] else text_parts,
         image_data)
      else
        if str_contains part "]" then
          let ps := py_split1 part "]"
          let mime_type := ps.headD ""
          let rest := (ps.drop 1).headD ""
          let base64_data := py_strip rest
          (text_parts,
           if base64_data ≠ "" then some (py_strip mime_type, base64_data)
           else image_data)
        else (text_parts, image_data)
    let res := parts.enum.foldl step ([], none)
    let text_content :=
      if res.1 ≠ [] then some (py_strip (py_join "\n" res.1)) else none
    (text_content, res.2)

end StratifyAI

/-- C10: a message whose content lacks the `"[IMAGE:"` marker has
`has_image() = False` and `parse_vision_content()` returns the content
unchanged with no image data. -/
theorem StratifyAI.no_image_marker_roundtrip (m : StratifyAI.Message)
    (h : str_contains m.content "[IMAGE:" = false) :
    StratifyAI.has_image m = false ∧
    StratifyAI.parse_vision_content m = (some m.content, none) := by
  have hh : StratifyAI.has_image m = false := h
  exact ⟨hh, by simp [StratifyAI.parse_vision_content, hh]⟩

/-- C10 witness: a plain text message round-trips through
`parse_vision_content`. -/
theorem StratifyAI.no_image_marker_roundtrip_witness :
    StratifyAI.has_image { role := .user, content := "hello" } = false ∧
    StratifyAI.parse_vision_content { role := .user, content := "hello" } =
      (some "hello", none) :=
  StratifyAI.no_image_marker_roundtrip { role := .user, content := "hello" }
    (by decide)
